import Mathlib

/-!
Verification of the notification dispatcher in `src/hooks/scripts/notify.py`.

The development shallowly embeds the Python module: the Event Classifier
(`generate_message_from_hook`), the Platform Notifier (`show_notification`
with the three backends `notify_windows`, `notify_macos`, `notify_linux`),
and the entry point (`main`).  Pure string manipulation is translated
directly; the effects (platform detection, library availability, the native
notification calls) are abstracted into an explicit environment value, and
process exit codes become fields of an explicit result value.
-/

namespace Notify

/-- Python slice `s[:n]`: the first `n` characters (code points) of `s`.
Python slicing counts characters, exactly as `List.take` on `String.data`. -/
def strTake (s : String) (n : Nat) : String :=
  ⟨s.data.take n⟩

/-- Helper for the Python `in` operator on strings: does the list `n` occur
as a contiguous run inside the second list? -/
def infixSearch (n : List Char) : List Char → Bool
  | [] => n.isEmpty
  | c :: rest => List.isPrefixOf n (c :: rest) || infixSearch n rest

/-- Python `needle in haystack` on strings: substring containment. -/
def strContainsSub (haystack needle : String) : Bool :=
  infixSearch needle.data haystack.data

/-- Final path component, as `pathlib.Path(p).name` computes it for
POSIX-style paths: the last slash-separated component, where empty
components and `"."` components do not count (`Path("/").name = ""`,
`Path("a/b/").name = "b"`, `Path("x/y.txt").name = "y.txt"`). -/
def pathName (p : String) : String :=
  ((((p.splitOn "/").filter (fun c => c != "" && c != ".")).getLast?).getD "")

/-- Nested `tool_input` mapping of an Event Record: the fields the classifier
reads with `tool_input.get(...)`.  `none` models an absent key. -/
structure ToolInput where
  file_path : Option String
  command : Option String
  description : Option String
  deriving DecidableEq

/-- Nested `tool_response` mapping: the classifier reads only
`tool_response.get("success", True)`. -/
structure ToolResponse where
  success : Option Bool
  deriving DecidableEq

/-- Event Record: the JSON object read from stdin, restricted to the fields
`generate_message_from_hook` accesses, each `none` when the key is absent.
`data.get("tool_input", {})` makes an absent `tool_input` indistinguishable
from an empty mapping, so the nested mappings are inlined with optional
fields. -/
structure EventRecord where
  hook_event_name : Option String
  tool_name : Option String
  tool_input : ToolInput
  tool_response : ToolResponse
  error : Option String
  notification_type : Option String
  message : Option String
  source : Option String
  reason : Option String
  agent_type : Option String
  deriving DecidableEq

/-- Event Record with every field absent (the JSON object `{}`). -/
def emptyRecord : EventRecord :=
  ⟨none, none, ⟨none, none, none⟩, ⟨none⟩, none, none, none, none, none, none⟩

/-- Event Classifier `generate_message_from_hook(data)` (notify.py lines
203-277): derives the `(notification_type, title, message)` triple from an
Event Record.  Each branch is translated clause by clause from the Python
`if` chain; `data.get(k, d)` becomes `Option.getD`, f-strings become `++`,
`s[:n]` becomes `strTake`, and Python string truthiness `if s` becomes
`s ≠ ""`. -/
def generate_message_from_hook (data : EventRecord) : String × String × String :=
  let event_name := data.hook_event_name.getD ""
  let tool_name := data.tool_name.getD ""
  let tool_input := data.tool_input
  let tool_response := data.tool_response
  let error := data.error.getD ""
  if event_name = "SessionStart" then
    let source := data.source.getD "startup"
    ("info", "Session Started", "Session " ++ source)
  else if event_name = "Stop" then
    ("info", "Task Complete", "Claude has finished responding")
  else if event_name = "PreToolUse" then
    if tool_name = "Write" ∨ tool_name = "Edit" then
      let file_path := tool_input.file_path.getD "unknown"
      let filename := if file_path ≠ "" then pathName file_path else "unknown"
      ("info", "Writing: " ++ filename, "Modifying " ++ filename)
    else if tool_name = "Bash" then
      let cmd := tool_input.command.getD ""
      let short_cmd := if cmd.length > 50 then strTake cmd 50 ++ "..." else cmd
      ("info", "Running Command", short_cmd)
    else if tool_name = "Task" then
      let desc := tool_input.description.getD "subtask"
      ("info", "Spawning Task", strTake desc 60)
    else
      ("info", "Tool: " ++ tool_name, "Using " ++ tool_name)
  else if event_name = "PostToolUse" then
    if tool_name = "Write" ∨ tool_name = "Edit" then
      let file_path := tool_input.file_path.getD ""
      let filename := if file_path ≠ "" then pathName file_path else "file"
      let success := tool_response.success.getD true
      let status := if success then "saved" else "failed"
      ("info", "File " ++ status, filename)
    else if tool_name = "Task" then
      ("info", "Subtask Done", "A subtask has completed")
    else
      ("info", tool_name ++ " Done", tool_name ++ " completed")
  else if event_name = "PostToolUseFailure" then
    let short_err := if error ≠ "" then strTake error 80 else "Unknown error"
    ("error", tool_name ++ " Failed", short_err)
  else if event_name = "Notification" then
    let ntype := data.notification_type.getD "info"
    let msg := data.message.getD "Notification"
    (ntype, "Claude Code", strTake msg 100)
  else if event_name = "SubagentStart" then
    let agent_type := data.agent_type.getD "Agent"
    ("info", "Agent Started", agent_type ++ " spawned")
  else if event_name = "SubagentStop" then
    let agent_type := data.agent_type.getD "Agent"
    ("info", "Agent Stopped", agent_type ++ " finished")
  else if event_name = "SessionEnd" then
    let reason := data.reason.getD "ended"
    ("info", "Session Ended", "Reason: " ++ reason)
  else
    ("info", "Claude Code", if event_name = "" then "Hook triggered" else event_name)

/-- Benign win10toast error pattern (notify.py lines 82-83): the caught
exception's text contains one of the three whitelisted substrings. -/
def isBenignToastError (e : String) : Bool :=
  strContainsSub e "WPARAM" || strContainsSub e "LRESULT" || strContainsSub e "WNDPROC"

/-- Outcome of one abstracted native backend call: the call returned, the
backend library failed to import, or the call raised an exception. -/
inductive BackendCall where
  | ok
  | importError
  | raised (msg : String)
  deriving DecidableEq

/-- Backend A, `notify_windows` (notify.py lines 62-87).  `available` models
the module-level `_win10toast_available and _toast_notifier is not None`
state (the two globals are set together at import time); the
`Option String` argument models what `show_toast` does when invoked:
`none` for a normal return, `some e` for an exception whose `str` is
`e`.  A raised exception matching the benign pattern is downgraded to
success. -/
def notify_windows (available : Bool) (showToast : Option String) : Bool :=
  if available = false then
    false
  else
    match showToast with
    | none => true
    | some e =>
      if isBenignToastError e then true else false

/-- Backend B, `notify_macos` (notify.py lines 90-108): success exactly when
the `pync.notify` call imports and returns; ImportError and any other
exception are genuine failures. -/
def notify_macos (call : BackendCall) : Bool :=
  match call with
  | .ok => true
  | .importError => false
  | .raised _ => false

/-- Backend C, `notify_linux` (notify.py lines 111-137): success exactly when
the `notify2` sequence imports and returns; ImportError and any other
exception are genuine failures. -/
def notify_linux (call : BackendCall) : Bool :=
  match call with
  | .ok => true
  | .importError => false
  | .raised _ => false

/-- Abstracted process environment for one invocation: the detected platform
string `platform.system()`, whether win10toast imported at module level, and
what each backend's native call would do if reached. -/
structure Env where
  system : String
  winAvailable : Bool
  winCall : Option String
  macCall : BackendCall
  linuxCall : BackendCall
  deriving DecidableEq

/-- Title lookup table of `show_notification` (notify.py lines 149-155). -/
def title_map : List (String × String) :=
  [("stop", "Claude Code - Session Ending"),
   ("permission", "Claude Code - Permission Required"),
   ("error", "Claude Code - Error"),
   ("warning", "Claude Code - Warning"),
   ("info", "Claude Code - Information")]

/-- Title resolution `title_map.get(notification_type, "Claude Code")`
(notify.py line 157). -/
def resolveTitle (notification_type : String) : String :=
  (List.lookup notification_type title_map).getD "Claude Code"

/-- Result of `show_notification`: the boolean Dispatch Outcome, together
with the resolved title value handed to the platform backend (and printed),
made observable for the statements below. -/
structure DispatchResult where
  success : Bool
  usedTitle : String
  deriving DecidableEq

/-- Platform Notifier `show_notification(notification_type, message)`
(notify.py lines 140-185): resolve the title, branch on the detected
platform, call exactly one backend; an unrecognized platform fails.  The
message text does not influence the abstracted backend outcome. -/
def show_notification (env : Env) (notification_type message : String) : DispatchResult :=
  let title := resolveTitle notification_type
  if env.system = "Windows" then
    ⟨notify_windows env.winAvailable env.winCall, title⟩
  else if env.system = "Darwin" then
    ⟨notify_macos env.macCall, title⟩
  else if env.system = "Linux" then
    ⟨notify_linux env.linuxCall, title⟩
  else
    ⟨false, title⟩

/-- JSON value, as `json.loads` can produce it (numbers restricted to
integers; no claim depends on float values). -/
inductive JsonValue where
  | null
  | bool (b : Bool)
  | num (n : Int)
  | str (s : String)
  | arr (xs : List JsonValue)
  | obj (fields : List (String × JsonValue))

/-- Python truthiness of a JSON value, as tested by `if hook_data:`
(notify.py line 285): `None`, `False`, `0`, `""`, `[]` and `{}` are falsy. -/
def truthy : JsonValue → Bool
  | .null => false
  | .bool b => b
  | .num n => n != 0
  | .str s => s != ""
  | .arr xs => !xs.isEmpty
  | .obj fs => !fs.isEmpty

/-- Value of a key in a JSON object (Python `dict` lookup; first binding
wins, JSON objects have distinct keys). -/
def lookupField (fs : List (String × JsonValue)) (k : String) : Option JsonValue :=
  (fs.find? (fun p => p.1 == k)).map Prod.snd

/-- String-typed field of a JSON object.  The hook protocol sends these
fields as strings; a present non-string value is treated as absent. -/
def getStrField (fs : List (String × JsonValue)) (k : String) : Option String :=
  match lookupField fs k with
  | some (.str s) => some s
  | _ => none

/-- Bool-typed field of a JSON object (for `tool_response.success`). -/
def getBoolField (fs : List (String × JsonValue)) (k : String) : Option Bool :=
  match lookupField fs k with
  | some (.bool b) => some b
  | _ => none

/-- Object-typed field of a JSON object, defaulting to the empty mapping as
`data.get("tool_input", {})` does. -/
def getObjField (fs : List (String × JsonValue)) (k : String) : List (String × JsonValue) :=
  match lookupField fs k with
  | some (.obj g) => g
  | _ => []

/-- View of a parsed JSON object as an Event Record, reading exactly the
keys `generate_message_from_hook` accesses. -/
def toEventRecord (fs : List (String × JsonValue)) : EventRecord :=
  { hook_event_name := getStrField fs "hook_event_name"
    tool_name := getStrField fs "tool_name"
    tool_input :=
      { file_path := getStrField (getObjField fs "tool_input") "file_path"
        command := getStrField (getObjField fs "tool_input") "command"
        description := getStrField (getObjField fs "tool_input") "description" }
    tool_response := { success := getBoolField (getObjField fs "tool_response") "success" }
    error := getStrField fs "error"
    notification_type := getStrField fs "notification_type"
    message := getStrField fs "message"
    source := getStrField fs "source"
    reason := getStrField fs "reason"
    agent_type := getStrField fs "agent_type" }

/-- Observable result of one `main` run: the process exit status, whether
`show_notification` was invoked, and whether the usage text was printed. -/
structure MainResult where
  exitCode : Nat
  dispatched : Bool
  printedUsage : Bool
  deriving DecidableEq

/-- Hook-mode dispatch (notify.py lines 287-288): classify the record, then
hand its derived type and message, but not its derived title, to
`show_notification`. -/
def hookDispatch (env : Env) (fs : List (String × JsonValue)) : DispatchResult :=
  let t := generate_message_from_hook (toEventRecord fs)
  show_notification env t.1 t.2.2

/-- Legacy branch of `main` (notify.py lines 296-313): fewer than two
positional arguments (`len(sys.argv) < 3`) prints usage and exits 1 without
dispatching; otherwise dispatch `argv[1]` as type and `argv[2]` as message.
`args` is `sys.argv[1:]`. -/
def legacyMain (env : Env) (args : List String) : Option MainResult :=
  match args with
  | notification_type :: message :: _ =>
    some ⟨if (show_notification env notification_type message).success then 0 else 1,
          true, false⟩
  | _ => some ⟨1, false, true⟩

/-- Entry point `main()` (notify.py lines 280-313).  `stdin` is the result
of `parse_stdin_json` (`none` when stdin is a tty, empty, or not valid
JSON).  A falsy parsed value fails the `if hook_data:` test and falls
through to the legacy branch.  A truthy non-object value makes
`generate_message_from_hook` raise an uncaught `AttributeError`
(`.get` on a non-dict), modelled as `none`: no clean exit. -/
def main (env : Env) (stdin : Option JsonValue) (args : List String) : Option MainResult :=
  match stdin with
  | some v =>
    if truthy v then
      match v with
      | .obj fs =>
        some ⟨if (hookDispatch env fs).success then 0 else 1, true, false⟩
      | _ => none
    else
      legacyMain env args
  | none => legacyMain env args

/-! ## Helper lemmas -/

/-- Two strings concatenate to the empty string exactly when both are empty. -/
theorem string_append_eq_empty_iff (a b : String) : a ++ b = "" ↔ a = "" ∧ b = "" := by
  constructor
  · intro h
    have hd : a.data ++ b.data = ([] : List Char) := by
      have h2 := congrArg String.data h
      rw [String.data_append] at h2
      exact h2
    rcases List.append_eq_nil.mp hd with ⟨ha, hb⟩
    exact ⟨String.ext ha, String.ext hb⟩
  · rintro ⟨ha, hb⟩
    rw [ha, hb]
    rfl

/-- Python slice `s[:n]` is empty exactly when `n = 0` or `s` is empty. -/
theorem strTake_eq_empty_iff (s : String) (n : Nat) : strTake s n = "" ↔ n = 0 ∨ s = "" := by
  constructor
  · intro h
    have hd : s.data.take n = ([] : List Char) := congrArg String.data h
    rcases List.take_eq_nil_iff.mp hd with h0 | hnil
    · exact Or.inl h0
    · exact Or.inr (String.ext hnil)
  · rintro (h0 | hs)
    · rw [h0]
      exact String.ext (by simp [strTake])
    · rw [hs]
      exact String.ext (by simp [strTake])

/-- Recover the stored field from a `getD ""` value known to be non-empty. -/
theorem getD_empty_eq_some (o : Option String) (s : String) (hs : s ≠ "") (h : o.getD "" = s) :
    o = some s := by
  cases o <;> simp_all

/-! ## Concrete records used by the witnesses -/

/-- Event Record of a `Stop` event that also carries unrelated fields. -/
def stopRecord : EventRecord :=
  { emptyRecord with hook_event_name := some "Stop", tool_name := some "Write",
                     error := some "boom", message := some "text" }

/-- Command string of 60 repeated characters. -/
def cmd60 : String := String.mk (List.replicate 60 'x')

/-- Command string of exactly 50 repeated characters. -/
def cmd50 : String := String.mk (List.replicate 50 'x')

/-- `PreToolUse`/`Bash` record whose command has 60 characters. -/
def bashLongRecord : EventRecord :=
  { emptyRecord with hook_event_name := some "PreToolUse", tool_name := some "Bash",
                     tool_input := ⟨none, some cmd60, none⟩ }

/-- `PreToolUse`/`Bash` record whose command has exactly 50 characters. -/
def bashShortRecord : EventRecord :=
  { emptyRecord with hook_event_name := some "PreToolUse", tool_name := some "Bash",
                     tool_input := ⟨none, some cmd50, none⟩ }

/-- `PostToolUseFailure` record with a 200-character error text. -/
def longErrorRecord : EventRecord :=
  { emptyRecord with hook_event_name := some "PostToolUseFailure",
                     tool_name := some "Bash",
                     error := some (String.mk (List.replicate 200 'a')) }

/-- `PreToolUse`/`Bash` record whose command is present but empty. -/
def bashEmptyRecord : EventRecord :=
  { emptyRecord with hook_event_name := some "PreToolUse", tool_name := some "Bash",
                     tool_input := ⟨none, some "", none⟩ }

/-- Environment of a Linux host whose notify2 call succeeds. -/
def envLinux : Env := ⟨"Linux", false, none, .importError, .ok⟩

/-- Environment of an unrecognized platform. -/
def envBad : Env := ⟨"Plan9", true, none, .ok, .ok⟩

/-- Environment of a Windows host where win10toast failed to import. -/
def envWinNoLib : Env := ⟨"Windows", false, none, .ok, .ok⟩

/-- Environment of a Windows host whose toast call raises a non-whitelisted
exception. -/
def envWinRaise : Env := ⟨"Windows", true, some "boom", .ok, .ok⟩

/-- Hook-mode stdin fields of a `Stop` event. -/
def stopFields : List (String × JsonValue) := [("hook_event_name", .str "Stop")]

/-! ## Claim theorems -/

/-- C7: every Event Record whose `hook_event_name` is `"Stop"` classifies to
severity `"info"` and title `"Task Complete"`, regardless of all other
fields of the record. -/
theorem stop_triple (r : EventRecord) (h : r.hook_event_name = some "Stop") :
    (generate_message_from_hook r).1 = "info" ∧
    (generate_message_from_hook r).2.1 = "Task Complete" := by
  simp [generate_message_from_hook, h]

/-- Witness for C7 at a concrete record that carries unrelated fields. -/
theorem stop_triple_witness :
    (generate_message_from_hook stopRecord).1 = "info" ∧
    (generate_message_from_hook stopRecord).2.1 = "Task Complete" :=
  stop_triple stopRecord rfl

/-- C3: for `PreToolUse` with tool `Bash`, a command longer than 50
characters derives the message made of its first 50 characters followed by
`"..."`, and a command of at most 50 characters derives the command
unmodified. -/
theorem preToolUse_bash_truncation (r : EventRecord) (cmd : String)
    (h1 : r.hook_event_name = some "PreToolUse")
    (h2 : r.tool_name = some "Bash")
    (h3 : r.tool_input.command = some cmd) :
    (cmd.length > 50 →
      (generate_message_from_hook r).2.2 = strTake cmd 50 ++ "...") ∧
    (cmd.length ≤ 50 → (generate_message_from_hook r).2.2 = cmd) := by
  constructor
  · intro hl
    simp [generate_message_from_hook, h1, h2, h3, hl]
  · intro hl
    simp [generate_message_from_hook, h1, h2, h3, Nat.not_lt.mpr hl]

/-- Witness for C3 at a 60-character and at a 50-character command. -/
theorem preToolUse_bash_truncation_witness :
    (generate_message_from_hook bashLongRecord).2.2 = strTake cmd60 50 ++ "..." ∧
    (generate_message_from_hook bashShortRecord).2.2 = cmd50 :=
  ⟨(preToolUse_bash_truncation bashLongRecord cmd60 rfl rfl rfl).1 (by decide),
   (preToolUse_bash_truncation bashShortRecord cmd50 rfl rfl rfl).2 (by decide)⟩

/-- C6: every `PostToolUseFailure` record classifies to severity `"error"`,
title `"{tool_name} Failed"`, and a message equal to the first 80 characters
of the error text, with no ellipsis, defaulting to `"Unknown error"` when
the error text is absent or empty. -/
theorem postToolUseFailure_triple (r : EventRecord)
    (h : r.hook_event_name = some "PostToolUseFailure") :
    generate_message_from_hook r =
      ("error", r.tool_name.getD "" ++ " Failed",
        if r.error.getD "" ≠ "" then strTake (r.error.getD "") 80 else "Unknown error") := by
  simp [generate_message_from_hook, h]

/-- Witness for C6 at a 200-character error: the message is exactly the
first 80 characters. -/
theorem postToolUseFailure_triple_witness :
    generate_message_from_hook longErrorRecord =
      ("error", "Bash Failed", String.mk (List.replicate 80 'a')) := by
  have h := postToolUseFailure_triple longErrorRecord rfl
  rw [h]
  decide

/-- C2 counterexample: the claim says a `SessionEnd` record derives a
message equal to the reason text (default `"ended"`); the code prefixes
`"Reason: "`, so at the record `{hook_event_name: "SessionEnd"}` the derived
message is `"Reason: ended"`, not `"ended"`. -/
theorem sessionEnd_message_refuted :
    ¬ (∀ r : EventRecord, r.hook_event_name = some "SessionEnd" →
        (generate_message_from_hook r).2.2 = r.reason.getD "ended") := by
  intro hclaim
  have h := hclaim { emptyRecord with hook_event_name := some "SessionEnd" } rfl
  revert h
  decide

/-- C2 amended: every `SessionEnd` record classifies to severity `"info"`,
title `"Session Ended"`, and message `"Reason: "` followed by the reason
text, with `"ended"` used when the reason field is absent. -/
theorem sessionEnd_triple (r : EventRecord) (h : r.hook_event_name = some "SessionEnd") :
    generate_message_from_hook r =
      ("info", "Session Ended", "Reason: " ++ r.reason.getD "ended") := by
  simp [generate_message_from_hook, h]

/-- Witness for the amended C2 at a record with the reason field absent. -/
theorem sessionEnd_triple_witness :
    generate_message_from_hook { emptyRecord with hook_event_name := some "SessionEnd" } =
      ("info", "Session Ended", "Reason: ended") := by
  have h := sessionEnd_triple { emptyRecord with hook_event_name := some "SessionEnd" } rfl
  rw [h]
  decide

/-- The title a `show_notification` call hands to its backend is always the
severity lookup result, whatever the platform and backend state. -/
theorem show_notification_usedTitle (env : Env) (notification_type message : String) :
    (show_notification env notification_type message).usedTitle =
      resolveTitle notification_type := by
  unfold show_notification
  by_cases h1 : env.system = "Windows" <;> by_cases h2 : env.system = "Darwin" <;>
    by_cases h3 : env.system = "Linux" <;> simp [h1, h2, h3]

/-- C4: with the win10toast handle available, a toast call raising an
exception whose text matches the whitelist yields dispatch success, and one
whose text matches none of the whitelisted substrings yields failure. -/
theorem windows_benign_exception (e : String) :
    (isBenignToastError e = true → notify_windows true (some e) = true) ∧
    (isBenignToastError e = false → notify_windows true (some e) = false) := by
  constructor <;> intro h <;> simp [notify_windows, h]

/-- Witness for C4 at a whitelisted and at a non-whitelisted error text. -/
theorem windows_benign_exception_witness :
    notify_windows true (some "TypeError: WPARAM is simple") = true ∧
    notify_windows true (some "toast backend unavailable") = false :=
  ⟨(windows_benign_exception _).1 (by decide),
   (windows_benign_exception _).2 (by decide)⟩

/-- C5: severity `"permission"` resolves to the fixed permission title on
every environment, and any severity outside the five-entry table resolves to
the bare program name. -/
theorem title_resolution (env : Env) (message s : String)
    (h1 : s ≠ "stop") (h2 : s ≠ "permission") (h3 : s ≠ "error")
    (h4 : s ≠ "warning") (h5 : s ≠ "info") :
    (show_notification env "permission" message).usedTitle =
      "Claude Code - Permission Required" ∧
    (show_notification env s message).usedTitle = "Claude Code" := by
  rw [show_notification_usedTitle, show_notification_usedTitle]
  constructor
  · rfl
  · simp [resolveTitle, title_map, List.lookup,
      beq_eq_false_iff_ne.mpr h1, beq_eq_false_iff_ne.mpr h2, beq_eq_false_iff_ne.mpr h3,
      beq_eq_false_iff_ne.mpr h4, beq_eq_false_iff_ne.mpr h5]

/-- Witness for C5 on a concrete environment and the severity `"custom"`. -/
theorem title_resolution_witness :
    (show_notification envLinux "permission" "msg").usedTitle =
      "Claude Code - Permission Required" ∧
    (show_notification envLinux "custom" "msg").usedTitle = "Claude Code" :=
  title_resolution envLinux "msg" "custom"
    (by decide) (by decide) (by decide) (by decide) (by decide)

/-- C8: hook mode exits 0 exactly on dispatch success; legacy mode with
fewer than two arguments prints usage, does not dispatch, and exits 1; with
two arguments it exits by the dispatch outcome; and an unsupported platform,
a missing win10toast dependency, or a non-whitelisted toast exception each
make the dispatch outcome false. -/
theorem exit_codes :
    (∀ (env : Env) (fs : List (String × JsonValue)) (args : List String),
      truthy (.obj fs) = true →
      main env (some (.obj fs)) args =
        some ⟨if (hookDispatch env fs).success then 0 else 1, true, false⟩) ∧
    (∀ (env : Env) (args : List String), args.length < 2 →
      main env none args = some ⟨1, false, true⟩) ∧
    (∀ (env : Env) (nt msg : String) (rest : List String),
      main env none (nt :: msg :: rest) =
        some ⟨if (show_notification env nt msg).success then 0 else 1, true, false⟩) ∧
    (∀ (env : Env) (nt msg : String), env.system ≠ "Windows" → env.system ≠ "Darwin" →
      env.system ≠ "Linux" → (show_notification env nt msg).success = false) ∧
    (∀ (env : Env) (nt msg : String), env.system = "Windows" → env.winAvailable = false →
      (show_notification env nt msg).success = false) ∧
    (∀ (env : Env) (nt msg e : String), env.system = "Windows" → env.winCall = some e →
      isBenignToastError e = false → (show_notification env nt msg).success = false) := by
  refine ⟨?_, ?_, ?_, ?_, ?_, ?_⟩
  · intro env fs args ht
    simp [main, ht]
  · intro env args hlen
    match args with
    | [] => rfl
    | [a] => rfl
    | a :: b :: rest =>
      rw [List.length_cons, List.length_cons] at hlen
      omega
  · intro env nt msg rest
    rfl
  · intro env nt msg h1 h2 h3
    simp [show_notification, h1, h2, h3]
  · intro env nt msg h1 h2
    simp [show_notification, notify_windows, h1, h2]
  · intro env nt msg e h1 h2 h3
    simp [show_notification, notify_windows, h1, h2, h3]

/-- Witness for C8 at concrete environments, records and argument lists. -/
theorem exit_codes_witness :
    main envLinux (some (.obj stopFields)) [] =
      some ⟨if (hookDispatch envLinux stopFields).success then 0 else 1, true, false⟩ ∧
    main envLinux none ["only"] = some ⟨1, false, true⟩ ∧
    main envLinux none ["info", "hello"] =
      some ⟨if (show_notification envLinux "info" "hello").success then 0 else 1,
            true, false⟩ ∧
    (show_notification envBad "info" "m").success = false ∧
    (show_notification envWinNoLib "info" "m").success = false ∧
    (show_notification envWinRaise "info" "m").success = false :=
  ⟨exit_codes.1 envLinux stopFields [] (by decide),
   exit_codes.2.1 envLinux ["only"] (by decide),
   exit_codes.2.2.1 envLinux "info" "hello" [],
   exit_codes.2.2.2.1 envBad "info" "m" (by decide) (by decide) (by decide),
   exit_codes.2.2.2.2.1 envWinNoLib "info" "m" rfl rfl,
   exit_codes.2.2.2.2.2 envWinRaise "info" "m" "boom" rfl rfl (by decide)⟩

/-- C9: a parsed stdin value that is falsy (empty object, empty list, zero,
null, ...) makes `main` behave exactly as if structured input were absent:
it falls through to legacy argument handling. -/
theorem falsy_stdin_legacy (env : Env) (v : JsonValue) (args : List String)
    (h : truthy v = false) :
    main env (some v) args = main env none args := by
  simp [main, h]

/-- Witness for C9 at the parsed empty JSON object. -/
theorem falsy_stdin_legacy_witness :
    main envLinux (some (.obj [])) [] = main envLinux none [] :=
  falsy_stdin_legacy envLinux (.obj []) [] (by decide)

/-- C10: in hook mode the title handed to the platform backend is the
severity lookup result, never the classifier's per-event title, so it
depends only on the derived severity. -/
theorem classifier_title_discarded :
    (∀ (env : Env) (fs : List (String × JsonValue)),
      (hookDispatch env fs).usedTitle =
        resolveTitle (generate_message_from_hook (toEventRecord fs)).1) ∧
    (∀ (env : Env) (fs1 fs2 : List (String × JsonValue)),
      (generate_message_from_hook (toEventRecord fs1)).1 =
        (generate_message_from_hook (toEventRecord fs2)).1 →
      (hookDispatch env fs1).usedTitle = (hookDispatch env fs2).usedTitle) := by
  constructor
  · intro env fs
    simp only [hookDispatch]
    exact show_notification_usedTitle env _ _
  · intro env fs1 fs2 h
    simp only [hookDispatch]
    rw [show_notification_usedTitle, show_notification_usedTitle, h]

/-- Witness for C10: a `Stop` event and the empty object derive different
classifier titles but the same severity, hence the same dispatched title. -/
theorem classifier_title_discarded_witness :
    (hookDispatch envLinux stopFields).usedTitle =
      resolveTitle (generate_message_from_hook (toEventRecord stopFields)).1 ∧
    (hookDispatch envLinux stopFields).usedTitle = (hookDispatch envLinux []).usedTitle :=
  ⟨classifier_title_discarded.1 envLinux stopFields,
   classifier_title_discarded.2 envLinux stopFields [] (by decide)⟩

/-- Every derived title is non-empty: each classifier branch builds the
title from a non-empty literal. -/
theorem gen_title_ne (r : EventRecord) : (generate_message_from_hook r).2.1 ≠ "" := by
  intro h
  simp only [generate_message_from_hook] at h
  repeat' split at h
  all_goals simp [string_append_eq_empty_iff] at h

/-- An empty derived message can arise only in the `PreToolUse`,
`PostToolUse` and `Notification` event families, whose own string fields
flow into the message unpadded. -/
theorem gen_msg_cases (r : EventRecord) (h : (generate_message_from_hook r).2.2 = "") :
    r.hook_event_name = some "PreToolUse" ∨ r.hook_event_name = some "PostToolUse" ∨
      r.hook_event_name = some "Notification" := by
  rcases hev : r.hook_event_name with _ | ev
  · exact absurd h (by simp [generate_message_from_hook, hev])
  · by_cases h1 : ev = "SessionStart"
    · exact absurd h (by simp [generate_message_from_hook, hev, h1, string_append_eq_empty_iff])
    · by_cases h2 : ev = "Stop"
      · exact absurd h (by simp [generate_message_from_hook, hev, h1, h2])
      · by_cases h3 : ev = "PreToolUse"
        · exact Or.inl (congrArg some h3)
        · by_cases h4 : ev = "PostToolUse"
          · exact Or.inr (Or.inl (congrArg some h4))
          · by_cases h5 : ev = "PostToolUseFailure"
            · by_cases he : r.error.getD "" = ""
              · exact absurd h (by
                  simp [generate_message_from_hook, hev, h1, h2, h3, h4, h5, he])
              · exact absurd h (by
                  simp [generate_message_from_hook, hev, h1, h2, h3, h4, h5, he,
                    strTake_eq_empty_iff])
            · by_cases h6 : ev = "Notification"
              · exact Or.inr (Or.inr (congrArg some h6))
              · by_cases h7 : ev = "SubagentStart"
                · exact absurd h (by
                    simp [generate_message_from_hook, hev, h1, h2, h3, h4, h5, h6, h7,
                      string_append_eq_empty_iff])
                · by_cases h8 : ev = "SubagentStop"
                  · exact absurd h (by
                      simp [generate_message_from_hook, hev, h1, h2, h3, h4, h5, h6, h7, h8,
                        string_append_eq_empty_iff])
                  · by_cases h9 : ev = "SessionEnd"
                    · exact absurd h (by
                        simp [generate_message_from_hook, hev, h1, h2, h3, h4, h5, h6, h7, h8,
                          h9, string_append_eq_empty_iff])
                    · by_cases h0 : ev = ""
                      · exact absurd h (by
                          simp [generate_message_from_hook, hev, h1, h2, h3, h4, h5, h6, h7,
                            h8, h9, h0])
                      · exact absurd h (by
                          simp [generate_message_from_hook, hev, h1, h2, h3, h4, h5, h6, h7,
                            h8, h9, h0])

/-- C1 counterexample: the record `{hook_event_name: "PreToolUse",
tool_name: "Bash", tool_input: {command: ""}}` derives an empty message, so
the classifier does not always return a non-empty message. -/
theorem message_nonempty_refuted :
    ¬ (∀ r : EventRecord,
        (generate_message_from_hook r).2.1 ≠ "" ∧
        (generate_message_from_hook r).2.2 ≠ "") := by
  intro hclaim
  exact (hclaim bashEmptyRecord).2 (by decide)

/-- C1 amended: every derived title is non-empty, and the derived message is
non-empty except in the `PreToolUse`, `PostToolUse` and `Notification` event
families, where a present-but-empty string field of the record (command,
description, file path name, or message) can flow through to the message. -/
theorem title_nonempty_message_classified (r : EventRecord) :
    (generate_message_from_hook r).2.1 ≠ "" ∧
    ((generate_message_from_hook r).2.2 = "" →
      r.hook_event_name = some "PreToolUse" ∨ r.hook_event_name = some "PostToolUse" ∨
        r.hook_event_name = some "Notification") :=
  ⟨gen_title_ne r, gen_msg_cases r⟩

/-- Witness for the amended C1 at the empty-command `Bash` record. -/
theorem title_nonempty_message_classified_witness :
    (generate_message_from_hook bashEmptyRecord).2.1 ≠ "" ∧
    (bashEmptyRecord.hook_event_name = some "PreToolUse" ∨
      bashEmptyRecord.hook_event_name = some "PostToolUse" ∨
      bashEmptyRecord.hook_event_name = some "Notification") :=
  ⟨(title_nonempty_message_classified bashEmptyRecord).1,
   (title_nonempty_message_classified bashEmptyRecord).2 (by decide)⟩

end Notify
